import Mathlib

/-!
Shallow embedding of `src/vulkano/src/framebuffer/framebuffer.rs`.

All `u32`/`u64` values of the source (dimensions, device limits, native
handles) are modelled as `Nat`: the code only compares and takes minima of
these values, never performs arithmetic that could wrap, so the embedding
is faithful without an explicit `% 2^32`.

External collaborator types (`image::traits::ImageView`, `sync`,
`image::sys::Layout`, the command sink, the device and the render-pass
descriptor) are not part of the source file; they are modelled from the
spec where needed, as documented on each definition.
-/

/-- Modelled from the spec: the dimensions object of an attachment's parent
image, exposing `width()`, `height()`, `depth()` and `array_layers()`
(the image-view collaborator exposes a handle, parent dimensions and an
identity-swizzle flag). -/
structure ImageDimensions where
  width : Nat
  height : Nat
  depth : Nat
  array_layers : Nat
deriving DecidableEq

/-- Modelled from the spec: a GPU image, the parent of an image view. -/
structure Image where
  dimensions : ImageDimensions
deriving DecidableEq

/-- Modelled from the spec: an attachment resource, i.e. an image view.
`handle` is the native `vk::ImageView` handle returned by
`inner().internal_object()`, `parent` the parent image, and
`identity_swizzle` the identity-swizzle flag the view exposes (never
consulted by the code in this file). -/
structure Attachment where
  handle : Nat
  parent : Image
  identity_swizzle : Bool
deriving DecidableEq

/-- Modelled from the spec: `image::sys::Layout` enumerator (target image
layouts). `add_transition` only ever uses `General`. -/
inductive Layout where
  | Undefined
  | General
  | ColorAttachmentOptimal
  | DepthStencilAttachmentOptimal
  | ShaderReadOnlyOptimal
  | TransferSrcOptimal
  | TransferDstOptimal
  | PresentSrc
deriving DecidableEq

/-- Modelled from the spec: `sync::PipelineStages`, a set of pipeline-stage
flags represented as booleans. -/
structure PipelineStages where
  top_of_pipe : Bool
  fragment_shader : Bool
  early_fragment_tests : Bool
  late_fragment_tests : Bool
  color_attachment_output : Bool
  bottom_of_pipe : Bool
deriving DecidableEq

/-- `PipelineStages::none()`: every stage flag cleared. -/
def PipelineStages.none : PipelineStages :=
  { top_of_pipe := false, fragment_shader := false, early_fragment_tests := false,
    late_fragment_tests := false, color_attachment_output := false, bottom_of_pipe := false }

/-- Modelled from the spec: `sync::AccessFlagBits`, a set of access flags
represented as booleans. -/
structure AccessFlagBits where
  color_attachment_read : Bool
  color_attachment_write : Bool
  depth_stencil_attachment_read : Bool
  depth_stencil_attachment_write : Bool
  shader_read : Bool
  shader_write : Bool
deriving DecidableEq

/-- `AccessFlagBits::none()`: every access flag cleared. -/
def AccessFlagBits.none : AccessFlagBits :=
  { color_attachment_read := false, color_attachment_write := false,
    depth_stencil_attachment_read := false, depth_stencil_attachment_write := false,
    shader_read := false, shader_write := false }

/-- Modelled from the spec: one attachment-transition record as accepted by
the command-recording sink (`CommandsListSink::add_image_transition`): the
target image, a mipmap range (first index and count), a layer range (first
index and count), the is-initial-transition flag, the target layout, the
pipeline-stage flags and the access flags.  The call
`sink.add_image_transition(&parent, 0, 1, 0, 1, true, Layout::General, stages, access)`
appends one such record. -/
structure ImageTransition where
  image : Image
  first_mipmap : Nat
  num_mipmaps : Nat
  first_layer : Nat
  num_layers : Nat
  initial_transition : Bool
  layout : Layout
  stages : PipelineStages
  access : AccessFlagBits
deriving DecidableEq

/-- The attachment-list abstraction of the source: the trait
`AttachmentsList` and its three implementors — `EmptyAttachmentsList`
(constructor `empty`), the unit type `()` (constructor `unit`) and the
cons node `List { first, rest }` (constructor `cons`).  The source chain is
heterogeneous at the type level; every element is an image view, so the
embedding flattens the element type to `Attachment`. -/
inductive AttachmentsList where
  | empty : AttachmentsList
  | unit : AttachmentsList
  | cons (first : Attachment) (rest : AttachmentsList) : AttachmentsList
deriving DecidableEq

/-- `raw_image_view_handles`: `EmptyAttachmentsList` and `()` return
`vec![]`; the cons node takes the rest's handles and inserts its own
element's handle at index 0 (`list.insert(0, self.first.inner().internal_object())`,
i.e. cons onto the front). -/
def AttachmentsList.raw_image_view_handles : AttachmentsList → List Nat
  | .empty => []
  | .unit => []
  | .cons first rest => first.handle :: rest.raw_image_view_handles

/-- `min_dimensions`: `EmptyAttachmentsList` and `()` return `None`; the
cons node takes (width, height, array_layers) of its element's parent
image and combines it with the rest's result by componentwise `cmp::min`.
The `debug_assert_eq!(my_view_dims.depth(), 1)` of the source is modelled
separately as `min_dimensions_debug_asserts`. -/
def AttachmentsList.min_dimensions : AttachmentsList → Option (Nat × Nat × Nat)
  | .empty => none
  | .unit => none
  | .cons first rest =>
    let d := first.parent.dimensions
    let my_view_dims : Nat × Nat × Nat := (d.width, d.height, d.array_layers)
    match rest.min_dimensions with
    | some r_dims =>
      some (min r_dims.1 my_view_dims.1, min r_dims.2.1 my_view_dims.2.1,
            min r_dims.2.2 my_view_dims.2.2)
    | none => some my_view_dims

/-- The `debug_assert_eq!(my_view_dims.depth(), 1)` executed at every cons
node reached while evaluating `min_dimensions`: it holds exactly when the
parent image of every attachment on the walk has depth 1. -/
def AttachmentsList.min_dimensions_debug_asserts : AttachmentsList → Prop
  | .empty => True
  | .unit => True
  | .cons first rest =>
    first.parent.dimensions.depth = 1 ∧ rest.min_dimensions_debug_asserts

/-- `add_transition`: the sink is modelled as the list of records received
so far, in call order.  `EmptyAttachmentsList` and `()` emit nothing; the
cons node first emits one record for its own element
(`sink.add_image_transition(&self.first.parent(), 0, 1, 0, 1, true, Layout::General, stages, access)`
with stages `{color_attachment_output, late_fragment_tests}` and access
`{color_attachment_read, color_attachment_write, depth_stencil_attachment_read,
depth_stencil_attachment_write}`), then recurses on the rest. -/
def AttachmentsList.add_transition : AttachmentsList → List ImageTransition → List ImageTransition
  | .empty, sink => sink
  | .unit, sink => sink
  | .cons first rest, sink =>
    let stages : PipelineStages :=
      { PipelineStages.none with color_attachment_output := true, late_fragment_tests := true }
    let access : AccessFlagBits :=
      { AccessFlagBits.none with
        color_attachment_read := true
        color_attachment_write := true
        depth_stencil_attachment_read := true
        depth_stencil_attachment_write := true }
    rest.add_transition (sink ++
      [{ image := first.parent
         first_mipmap := 0
         num_mipmaps := 1
         first_layer := 0
         num_layers := 1
         initial_transition := true
         layout := Layout.General
         stages := stages
         access := access }])

/-- The elements of an attachment list, head first (a measurement function
for the statements below, not part of the source). -/
def AttachmentsList.attachments : AttachmentsList → List Attachment
  | .empty => []
  | .unit => []
  | .cons first rest => first :: rest.attachments

/-- `IntoAttachmentsList`: `()` converts to `EmptyAttachmentsList`; the
macro `impl_into_atch_list!` implements every tuple arity from 1 to 26 by
`List { first: tuple.0, rest: into_attachments_list(tail) }`.  The
embedding is arity-generic over a `List Attachment`, whose structural
recursion is exactly the macro's expansion at each arity. -/
def intoAttachmentsList : List Attachment → AttachmentsList
  | [] => .empty
  | first :: rest => .cons first (intoAttachmentsList rest)

/-- `OomError` (external, modelled from the spec): the underlying
out-of-memory condition of the native call. -/
inductive OomError where
  | OutOfHostMemory
  | OutOfDeviceMemory
deriving DecidableEq

/-- `FramebufferCreationError`, from the source enum. -/
inductive FramebufferCreationError where
  | OomError (err : OomError)
  | DimensionsTooLarge
  | AttachmentNotIdentitySwizzled
  | AttachmentTooSmall
deriving DecidableEq

/-- Modelled from the spec: the per-axis framebuffer limits the device's
physical device reports (`limits.max_framebuffer_width()` etc.). -/
structure PhysicalDeviceLimits where
  max_framebuffer_width : Nat
  max_framebuffer_height : Nat
  max_framebuffer_layers : Nat
deriving DecidableEq

/-- Modelled from the spec: the device collaborator, exposing its physical
device's limits. -/
structure Device where
  physical_device_limits : PhysicalDeviceLimits
deriving DecidableEq

/-- Modelled from the spec: the render-pass descriptor collaborator.  It
exposes the attachment shape it declares (`compat_key`, the per-attachment
format codes) and a check that validates an attachment collection against
that shape, returning success or a descriptive failure that
`Framebuffer::new` surfaces pass-through.  The check's behaviour is kept
abstract as a function field, since its implementations live outside this
source file. -/
structure RenderPassDesc where
  compat_key : List Nat
  check_attachments_list : List Attachment → Except FramebufferCreationError Unit

/-- Modelled from the spec: the descriptor compatibility predicate between
two descriptors.  The spec gives the predicate abstractly; it is modelled
as equality of the declared attachment shapes, the standard render-pass
compatibility notion, under which a descriptor is compatible with itself. -/
def RenderPassDesc.is_compatible_with (a b : RenderPassDesc) : Bool :=
  a.compat_key == b.compat_key

/-- Modelled from the spec: a render pass reference (`RenderPassRef`),
exposing its device, its descriptor and its native handle
(`inner().internal_object()`). -/
structure RenderPass where
  device : Device
  desc : RenderPassDesc
  inner_handle : Nat

/-- The framebuffer object of the source: device, render pass, native
handle, requested dimensions and the owned attachment list. -/
structure Framebuffer where
  device : Device
  render_pass : RenderPass
  framebuffer : Nat
  dimensions : Nat × Nat × Nat
  resources : AttachmentsList

/-- `Framebuffer::new`.  The native call `vk.CreateFramebuffer` is an
external effect, passed in as `vkCreateFramebuffer` (arguments: the render
pass's native handle, the raw image-view handles, and width, height,
layers); its failure is wrapped into `FramebufferCreationError::OomError`
by the source's `From` chain.  Steps, in source order: descriptor
attachment check (pass-through on failure), conversion of the attachments
into list form, the dimension-limit check against
`dimensions[i] > limits[i]` returning `DimensionsTooLarge`, handle
extraction, the native call, and packaging of the result. -/
def Framebuffer.new (render_pass : RenderPass) (dimensions : Nat × Nat × Nat)
    (attachments : List Attachment)
    (vkCreateFramebuffer : Nat → List Nat → Nat × Nat × Nat → Except OomError Nat) :
    Except FramebufferCreationError Framebuffer :=
  let device := render_pass.device
  match render_pass.desc.check_attachments_list attachments with
  | .error e => .error e
  | .ok _ =>
    let atts := intoAttachmentsList attachments
    let limits := render_pass.device.physical_device_limits
    if dimensions.1 > limits.max_framebuffer_width ∨
       dimensions.2.1 > limits.max_framebuffer_height ∨
       dimensions.2.2 > limits.max_framebuffer_layers then
      .error FramebufferCreationError.DimensionsTooLarge
    else
      let ids := atts.raw_image_view_handles
      match vkCreateFramebuffer render_pass.inner_handle ids dimensions with
      | .error err => .error (FramebufferCreationError.OomError err)
      | .ok handle =>
        .ok { device := device, render_pass := render_pass, framebuffer := handle,
              dimensions := dimensions, resources := atts }

/-- `Framebuffer::is_compatible_with`: delegates to the owned render
pass's descriptor compatibility predicate against the candidate's
descriptor. -/
def Framebuffer.is_compatible_with (f : Framebuffer) (render_pass : RenderPass) : Bool :=
  f.render_pass.desc.is_compatible_with render_pass.desc

/-- `Framebuffer::width`: `self.dimensions[0]`. -/
def Framebuffer.width (f : Framebuffer) : Nat := f.dimensions.1

/-- `Framebuffer::height`: `self.dimensions[1]`. -/
def Framebuffer.height (f : Framebuffer) : Nat := f.dimensions.2.1

/-- `Framebuffer::layers`: `self.dimensions[2]`. -/
def Framebuffer.layers (f : Framebuffer) : Nat := f.dimensions.2.2

/-- Concrete device limits (the values of the spec's examples). -/
def limitsEx : PhysicalDeviceLimits :=
  { max_framebuffer_width := 4096, max_framebuffer_height := 4096,
    max_framebuffer_layers := 256 }

/-- Concrete device. -/
def deviceEx : Device := { physical_device_limits := limitsEx }

/-- Concrete render-pass descriptor declaring one attachment; its
attachment check accepts every collection. -/
def descEx : RenderPassDesc :=
  { compat_key := [37], check_attachments_list := fun _ => Except.ok () }

/-- Concrete render pass. -/
def renderPassEx : RenderPass :=
  { device := deviceEx, desc := descEx, inner_handle := 5 }

/-- Concrete 1024 by 768 single-layer parent image. -/
def imageEx : Image :=
  { dimensions := { width := 1024, height := 768, depth := 1, array_layers := 1 } }

/-- Concrete attachment onto `imageEx`. -/
def attachmentEx : Attachment :=
  { handle := 11, parent := imageEx, identity_swizzle := true }

/-- Concrete attachment whose parent is only 512 by 512 and whose swizzle
is not the identity. -/
def smallAttachmentEx : Attachment :=
  { handle := 12,
    parent := { dimensions := { width := 512, height := 512, depth := 1, array_layers := 1 } },
    identity_swizzle := false }

/-- Concrete native creation call that always succeeds with handle 99. -/
def vkCreateEx : Nat → List Nat → Nat × Nat × Nat → Except OomError Nat :=
  fun _ _ _ => Except.ok 99

/-- The framebuffer `Framebuffer.new renderPassEx (1024, 768, 1) [attachmentEx] vkCreateEx`
returns. -/
def framebufferEx : Framebuffer :=
  { device := deviceEx, render_pass := renderPassEx, framebuffer := 99,
    dimensions := (1024, 768, 1), resources := intoAttachmentsList [attachmentEx] }

theorem min?_cons_eq (x : Nat) (xs : List Nat) : (x :: xs).min? = some (xs.foldl min x) := rfl

theorem foldl_min_right (ys : List Nat) :
    ∀ z x : Nat, List.foldl min (min z x) ys = min (List.foldl min z ys) x := by
  induction ys with
  | nil => intro z x; rfl
  | cons y ys ih =>
    intro z x
    simp only [List.foldl_cons]
    rw [min_right_comm z x y]
    exact ih (min z y) x

theorem min_dimensions_none_of_attachments_nil (l : AttachmentsList)
    (h : l.attachments = []) : l.min_dimensions = none := by
  cases l with
  | empty => rfl
  | unit => rfl
  | cons first rest => simp [AttachmentsList.attachments] at h

theorem min_dimensions_eq_fold (l : AttachmentsList) :
    ∀ (a : Attachment) (as : List Attachment), l.attachments = a :: as →
      l.min_dimensions = some
        (List.foldl min a.parent.dimensions.width
           (as.map fun x => x.parent.dimensions.width),
         List.foldl min a.parent.dimensions.height
           (as.map fun x => x.parent.dimensions.height),
         List.foldl min a.parent.dimensions.array_layers
           (as.map fun x => x.parent.dimensions.array_layers)) := by
  induction l with
  | empty => intro a as h; simp [AttachmentsList.attachments] at h
  | unit => intro a as h; simp [AttachmentsList.attachments] at h
  | cons first rest ih =>
    intro a as h
    simp only [AttachmentsList.attachments, List.cons.injEq] at h
    obtain ⟨rfl, rfl⟩ := h
    cases hatt : rest.attachments with
    | nil =>
      have hnone : rest.min_dimensions = none :=
        min_dimensions_none_of_attachments_nil rest hatt
      simp [AttachmentsList.min_dimensions, hnone, hatt]
    | cons b bs =>
      have hsome := ih b bs hatt
      simp only [AttachmentsList.min_dimensions, hsome, hatt, List.map_cons,
        List.foldl_cons, Option.some.injEq, Prod.mk.injEq]
      refine ⟨?_, ?_, ?_⟩
      · rw [min_comm first.parent.dimensions.width b.parent.dimensions.width, foldl_min_right]
      · rw [min_comm first.parent.dimensions.height b.parent.dimensions.height, foldl_min_right]
      · rw [min_comm first.parent.dimensions.array_layers b.parent.dimensions.array_layers,
            foldl_min_right]

theorem raw_handles_eq_map (l : AttachmentsList) :
    l.raw_image_view_handles = l.attachments.map Attachment.handle := by
  induction l with
  | empty => rfl
  | unit => rfl
  | cons first rest ih =>
    simp [AttachmentsList.raw_image_view_handles, AttachmentsList.attachments, ih]

theorem attachments_intoAttachmentsList (xs : List Attachment) :
    (intoAttachmentsList xs).attachments = xs := by
  induction xs with
  | nil => rfl
  | cons x xs ih => simp [intoAttachmentsList, AttachmentsList.attachments, ih]

theorem debug_asserts_iff_all_depth_one (l : AttachmentsList) :
    l.min_dimensions_debug_asserts ↔
      ∀ a ∈ l.attachments, a.parent.dimensions.depth = 1 := by
  induction l with
  | empty => simp [AttachmentsList.min_dimensions_debug_asserts, AttachmentsList.attachments]
  | unit => simp [AttachmentsList.min_dimensions_debug_asserts, AttachmentsList.attachments]
  | cons first rest ih =>
    simp [AttachmentsList.min_dimensions_debug_asserts, AttachmentsList.attachments, ih]

/-- C1: for every attachment list, `min_dimensions()` returns `None` iff
the list is empty (`EmptyAttachmentsList` or the unit variant); for every
non-empty list it returns `Some` of a triple whose components are the
per-axis minima of (width, height, array-layer count) of each attachment's
parent image across the list. -/
theorem min_dimensions_none_iff_empty_and_axiswise_min (l : AttachmentsList) :
    (l.min_dimensions = none ↔ (l = AttachmentsList.empty ∨ l = AttachmentsList.unit)) ∧
    ∀ d : Nat × Nat × Nat, l.min_dimensions = some d →
      ((l.attachments.map fun a => a.parent.dimensions.width).min? = some d.1 ∧
       (l.attachments.map fun a => a.parent.dimensions.height).min? = some d.2.1 ∧
       (l.attachments.map fun a => a.parent.dimensions.array_layers).min? = some d.2.2) := by
  constructor
  · cases l with
    | empty => simp [AttachmentsList.min_dimensions]
    | unit => simp [AttachmentsList.min_dimensions]
    | cons first rest =>
      cases hr : rest.min_dimensions <;> simp [AttachmentsList.min_dimensions, hr]
  · intro d hd
    cases hatt : l.attachments with
    | nil =>
      rw [min_dimensions_none_of_attachments_nil l hatt] at hd
      exact absurd hd (by simp)
    | cons a as =>
      have hf := min_dimensions_eq_fold l a as hatt
      rw [hd] at hf
      injection hf with hf'
      rw [hf']
      refine ⟨?_, ?_, ?_⟩ <;> simp only [List.map_cons, min?_cons_eq]

/-- C1 witness: evaluated on the two-element list
`[attachmentEx (1024 by 768, 1 layer), smallAttachmentEx (512 by 512, 1 layer)]`,
whose `min_dimensions` is `some (512, 512, 1)`. -/
theorem min_dimensions_axiswise_min_witness :
    (((AttachmentsList.cons attachmentEx
        (AttachmentsList.cons smallAttachmentEx AttachmentsList.empty)).attachments.map
      fun a => a.parent.dimensions.width).min? = some 512 ∧
     ((AttachmentsList.cons attachmentEx
        (AttachmentsList.cons smallAttachmentEx AttachmentsList.empty)).attachments.map
      fun a => a.parent.dimensions.height).min? = some 512 ∧
     ((AttachmentsList.cons attachmentEx
        (AttachmentsList.cons smallAttachmentEx AttachmentsList.empty)).attachments.map
      fun a => a.parent.dimensions.array_layers).min? = some 1) :=
  (min_dimensions_none_iff_empty_and_axiswise_min
    (AttachmentsList.cons attachmentEx
      (AttachmentsList.cons smallAttachmentEx AttachmentsList.empty))).2 (512, 512, 1) rfl

/-- C2: handles come out in exactly the order the attachments were
supplied: on a list built from a supplied tuple the handle sequence is the
map of `handle` over the tuple's elements in order; the cons node puts its
own element's handle at index 0 ahead of the rest's handles; the empty
variants yield the empty sequence. -/
theorem raw_image_view_handles_head_first :
    (∀ xs : List Attachment,
      (intoAttachmentsList xs).raw_image_view_handles = xs.map Attachment.handle) ∧
    (∀ (first : Attachment) (rest : AttachmentsList),
      (AttachmentsList.cons first rest).raw_image_view_handles =
        first.handle :: rest.raw_image_view_handles) ∧
    AttachmentsList.empty.raw_image_view_handles = [] ∧
    AttachmentsList.unit.raw_image_view_handles = [] := by
  refine ⟨?_, fun first rest => rfl, rfl, rfl⟩
  intro xs
  rw [raw_handles_eq_map, attachments_intoAttachmentsList]

/-- C4: `add_transition` appends to the sink exactly one record per
attachment, in head-first order, each record carrying layout `General`,
stages {color_attachment_output, late_fragment_tests}, access
{color_attachment read+write, depth_stencil_attachment read+write},
mipmap range starting at 0 of length 1, layer range starting at 0 of
length 1, and the initial-transition flag set. -/
theorem add_transition_one_record_per_attachment (l : AttachmentsList)
    (sink : List ImageTransition) :
    l.add_transition sink = sink ++ l.attachments.map (fun a =>
      { image := a.parent
        first_mipmap := 0
        num_mipmaps := 1
        first_layer := 0
        num_layers := 1
        initial_transition := true
        layout := Layout.General
        stages := { PipelineStages.none with
                    color_attachment_output := true
                    late_fragment_tests := true }
        access := { AccessFlagBits.none with
                    color_attachment_read := true
                    color_attachment_write := true
                    depth_stencil_attachment_read := true
                    depth_stencil_attachment_write := true } }) := by
  induction l generalizing sink with
  | empty => simp [AttachmentsList.add_transition, AttachmentsList.attachments]
  | unit => simp [AttachmentsList.add_transition, AttachmentsList.attachments]
  | cons first rest ih =>
    simp [AttachmentsList.add_transition, AttachmentsList.attachments, ih, List.append_assoc]

/-- C5: round-trip — converting a sequence of K attachment resources via
`into_attachments_list` and extracting `raw_image_view_handles` yields a
sequence of length exactly K with order preserved; the zero-length input
converts to the `EmptyAttachmentsList` variant.  (The source implements
tuple arities 0 through 26 by macro; the list embedding subsumes every
arity.) -/
theorem into_attachments_list_roundtrip :
    intoAttachmentsList ([] : List Attachment) = AttachmentsList.empty ∧
    ∀ xs : List Attachment,
      (intoAttachmentsList xs).raw_image_view_handles.length = xs.length ∧
      (intoAttachmentsList xs).raw_image_view_handles = xs.map Attachment.handle := by
  refine ⟨rfl, fun xs => ?_⟩
  have h : (intoAttachmentsList xs).raw_image_view_handles = xs.map Attachment.handle := by
    rw [raw_handles_eq_map, attachments_intoAttachmentsList]
  exact ⟨by rw [h, List.length_map], h⟩

/-- C10: the `debug_assert_eq!(depth, 1)` evaluated while computing
`min_dimensions` on a cons node holds exactly when every attachment's
parent image has depth 1, and the third component of the returned triple
is the minimum of the parent images' array-layer counts (never the depth,
never a view-level layer range — the view collaborator exposes none). -/
theorem min_dimensions_depth_assert_and_array_layers (first : Attachment)
    (rest : AttachmentsList) :
    ((AttachmentsList.cons first rest).min_dimensions_debug_asserts ↔
      ∀ a ∈ (AttachmentsList.cons first rest).attachments, a.parent.dimensions.depth = 1) ∧
    ∀ w h n : Nat, (AttachmentsList.cons first rest).min_dimensions = some (w, h, n) →
      ((AttachmentsList.cons first rest).attachments.map
        fun a => a.parent.dimensions.array_layers).min? = some n := by
  refine ⟨debug_asserts_iff_all_depth_one _, ?_⟩
  intro w h n hd
  have hf := min_dimensions_eq_fold (AttachmentsList.cons first rest) first rest.attachments rfl
  rw [hd] at hf
  injection hf with hf'
  simp only [Prod.mk.injEq] at hf'
  rw [show (AttachmentsList.cons first rest).attachments = first :: rest.attachments from rfl]
  simp only [List.map_cons, min?_cons_eq, hf'.2.2]

/-- C10 witness: evaluated on the cons list
`[attachmentEx, smallAttachmentEx]`, whose `min_dimensions` is
`some (512, 512, 1)`. -/
theorem min_dimensions_array_layers_witness :
    ((AttachmentsList.cons attachmentEx
        (AttachmentsList.cons smallAttachmentEx AttachmentsList.empty)).attachments.map
      fun a => a.parent.dimensions.array_layers).min? = some 1 :=
  (min_dimensions_depth_assert_and_array_layers attachmentEx
    (AttachmentsList.cons smallAttachmentEx AttachmentsList.empty)).2 512 512 1 rfl

theorem framebuffer_new_error_cases (render_pass : RenderPass)
    (dimensions : Nat × Nat × Nat) (attachments : List Attachment)
    (vkCreateFramebuffer : Nat → List Nat → Nat × Nat × Nat → Except OomError Nat)
    (e : FramebufferCreationError)
    (h : Framebuffer.new render_pass dimensions attachments vkCreateFramebuffer =
      Except.error e) :
    render_pass.desc.check_attachments_list attachments = Except.error e ∨
    e = FramebufferCreationError.DimensionsTooLarge ∨
    ∃ oe, e = FramebufferCreationError.OomError oe := by
  simp only [Framebuffer.new] at h
  split at h
  · next e' heq =>
    injection h with h'
    subst h'
    exact Or.inl heq
  · split at h
    · injection h with h'
      exact Or.inr (Or.inl h'.symm)
    · split at h
      · next oe heq =>
        injection h with h'
        exact Or.inr (Or.inr ⟨oe, h'.symm⟩)
      · exact absurd h (by simp)

theorem framebuffer_new_ok_fields (render_pass : RenderPass)
    (dimensions : Nat × Nat × Nat) (attachments : List Attachment)
    (vkCreateFramebuffer : Nat → List Nat → Nat × Nat × Nat → Except OomError Nat)
    (fb : Framebuffer)
    (h : Framebuffer.new render_pass dimensions attachments vkCreateFramebuffer =
      Except.ok fb) :
    fb.device = render_pass.device ∧ fb.render_pass = render_pass ∧
    fb.dimensions = dimensions ∧ fb.resources = intoAttachmentsList attachments := by
  simp only [Framebuffer.new] at h
  split at h
  · exact absurd h (by simp)
  · split at h
    · exact absurd h (by simp)
    · split at h
      · exact absurd h (by simp)
      · injection h with h'
        subst h'
        exact ⟨rfl, rfl, rfl, rfl⟩

/-- C3: whenever the requested dimensions exceed the device's per-axis
framebuffer limits on at least one axis, `Framebuffer::new` fails with
`DimensionsTooLarge`, for every attachment collection the render pass's
descriptor check accepts and every behaviour of the native call — the
comparison uses only the caller's requested dimensions, never dimensions
derived from the attachments via `min_dimensions()`. -/
theorem framebuffer_new_dimensions_too_large (render_pass : RenderPass)
    (dimensions : Nat × Nat × Nat) (attachments : List Attachment)
    (vkCreateFramebuffer : Nat → List Nat → Nat × Nat × Nat → Except OomError Nat)
    (hcheck : render_pass.desc.check_attachments_list attachments = Except.ok ())
    (hdims : dimensions.1 > render_pass.device.physical_device_limits.max_framebuffer_width ∨
      dimensions.2.1 > render_pass.device.physical_device_limits.max_framebuffer_height ∨
      dimensions.2.2 > render_pass.device.physical_device_limits.max_framebuffer_layers) :
    Framebuffer.new render_pass dimensions attachments vkCreateFramebuffer =
      Except.error FramebufferCreationError.DimensionsTooLarge := by
  simp only [Framebuffer.new, hcheck]
  rw [if_pos hdims]

/-- C3 witness: requesting `(4294967295, 4294967295, 4294967295)` against
limits `(4096, 4096, 256)` with one valid 1024 by 768 attachment. -/
theorem framebuffer_new_dimensions_too_large_witness :
    Framebuffer.new renderPassEx (4294967295, 4294967295, 4294967295) [attachmentEx]
        vkCreateEx =
      Except.error FramebufferCreationError.DimensionsTooLarge :=
  framebuffer_new_dimensions_too_large renderPassEx (4294967295, 4294967295, 4294967295)
    [attachmentEx] vkCreateEx rfl (by decide)

/-- C6: construction never produces `Err(AttachmentTooSmall)` or
`Err(AttachmentNotIdentitySwizzled)`: the only error sources are the
descriptor check (pass-through, which in the evaluated baseline never
returns these variants — the hypothesis), the dimension check
(`DimensionsTooLarge`) and the native call (wrapped as `OomError`), even
when an attachment's parent image is strictly smaller than the requested
dimensions or a view's swizzle is non-identity. -/
theorem framebuffer_new_never_attachment_errors (render_pass : RenderPass)
    (dimensions : Nat × Nat × Nat) (attachments : List Attachment)
    (vkCreateFramebuffer : Nat → List Nat → Nat × Nat × Nat → Except OomError Nat)
    (hcheck : ∀ e, render_pass.desc.check_attachments_list attachments = Except.error e →
      e ≠ FramebufferCreationError.AttachmentTooSmall ∧
      e ≠ FramebufferCreationError.AttachmentNotIdentitySwizzled) :
    Framebuffer.new render_pass dimensions attachments vkCreateFramebuffer ≠
        Except.error FramebufferCreationError.AttachmentTooSmall ∧
      Framebuffer.new render_pass dimensions attachments vkCreateFramebuffer ≠
        Except.error FramebufferCreationError.AttachmentNotIdentitySwizzled := by
  refine ⟨fun h => ?_, fun h => ?_⟩
  · rcases framebuffer_new_error_cases render_pass dimensions attachments vkCreateFramebuffer
      _ h with hc | hc | ⟨oe, hc⟩
    · exact (hcheck _ hc).1 rfl
    · simp at hc
    · simp at hc
  · rcases framebuffer_new_error_cases render_pass dimensions attachments vkCreateFramebuffer
      _ h with hc | hc | ⟨oe, hc⟩
    · exact (hcheck _ hc).2 rfl
    · simp at hc
    · simp at hc

/-- C6 witness: an attachment whose 512 by 512 parent is strictly smaller
than the requested 600 by 600 framebuffer and whose swizzle is not the
identity still never yields these two errors. -/
theorem framebuffer_new_never_attachment_errors_witness :
    Framebuffer.new renderPassEx (600, 600, 1) [smallAttachmentEx] vkCreateEx ≠
        Except.error FramebufferCreationError.AttachmentTooSmall ∧
      Framebuffer.new renderPassEx (600, 600, 1) [smallAttachmentEx] vkCreateEx ≠
        Except.error FramebufferCreationError.AttachmentNotIdentitySwizzled :=
  framebuffer_new_never_attachment_errors renderPassEx (600, 600, 1) [smallAttachmentEx]
    vkCreateEx (by intro e he; simp [renderPassEx, descEx] at he)

/-- C7: `is_compatible_with` is exactly the render-pass descriptor
compatibility predicate applied to the framebuffer's owned descriptor and
the candidate's descriptor, with no additional attachment-level
comparison; and every successfully constructed framebuffer is compatible
with the exact render pass it was created from. -/
theorem is_compatible_with_delegates_and_reflexive :
    (∀ (f : Framebuffer) (rp : RenderPass),
      f.is_compatible_with rp = f.render_pass.desc.is_compatible_with rp.desc) ∧
    (∀ (render_pass : RenderPass) (dimensions : Nat × Nat × Nat)
      (attachments : List Attachment)
      (vkCreateFramebuffer : Nat → List Nat → Nat × Nat × Nat → Except OomError Nat)
      (fb : Framebuffer),
      Framebuffer.new render_pass dimensions attachments vkCreateFramebuffer = Except.ok fb →
      fb.is_compatible_with render_pass = true) := by
  refine ⟨fun f rp => rfl, ?_⟩
  intro render_pass dimensions attachments vkCreateFramebuffer fb h
  have hfields :=
    framebuffer_new_ok_fields render_pass dimensions attachments vkCreateFramebuffer fb h
  unfold Framebuffer.is_compatible_with RenderPassDesc.is_compatible_with
  rw [hfields.2.1]
  exact beq_self_eq_true _

/-- C7 witness: `framebufferEx`, built from `renderPassEx`, is compatible
with `renderPassEx`. -/
theorem is_compatible_with_reflexive_witness :
    framebufferEx.is_compatible_with renderPassEx = true :=
  is_compatible_with_delegates_and_reflexive.2 renderPassEx (1024, 768, 1) [attachmentEx]
    vkCreateEx framebufferEx rfl

/-- C8: on success the accessors report the requested dimensions —
`width()` is axis 0, `height()` axis 1, `layers()` axis 2, `dimensions()`
the whole triple — and `device()` and `render_pass()` return exactly the
stored collaborators; all are total functions of the immutable object
(pure reads that cannot fail). -/
theorem framebuffer_new_accessors (render_pass : RenderPass)
    (dimensions : Nat × Nat × Nat) (attachments : List Attachment)
    (vkCreateFramebuffer : Nat → List Nat → Nat × Nat × Nat → Except OomError Nat)
    (fb : Framebuffer)
    (h : Framebuffer.new render_pass dimensions attachments vkCreateFramebuffer =
      Except.ok fb) :
    fb.width = dimensions.1 ∧ fb.height = dimensions.2.1 ∧ fb.layers = dimensions.2.2 ∧
    fb.dimensions = dimensions ∧ fb.device = render_pass.device ∧
    fb.render_pass = render_pass := by
  obtain ⟨hdev, hrp, hdim, -⟩ :=
    framebuffer_new_ok_fields render_pass dimensions attachments vkCreateFramebuffer fb h
  refine ⟨?_, ?_, ?_, hdim, hdev, hrp⟩ <;>
    simp [Framebuffer.width, Framebuffer.height, Framebuffer.layers, hdim]

/-- C8 witness: the spec's example — a request of `(1024, 768, 1)` reports
`width() = 1024`, `height() = 768`, `layers() = 1`. -/
theorem framebuffer_new_accessors_witness :
    framebufferEx.width = 1024 ∧ framebufferEx.height = 768 ∧ framebufferEx.layers = 1 ∧
    framebufferEx.dimensions = (1024, 768, 1) ∧ framebufferEx.device = renderPassEx.device ∧
    framebufferEx.render_pass = renderPassEx :=
  framebuffer_new_accessors renderPassEx (1024, 768, 1) [attachmentEx] vkCreateEx
    framebufferEx rfl

/-- C9: the dimension validation enforces no lower bound — it rejects only
when an axis strictly exceeds the device limit, so a request of
`(0, 0, 0)` passes the dimension check and construction proceeds to the
native creation call, whose outcome alone decides the result. -/
theorem framebuffer_new_no_lower_bound (render_pass : RenderPass)
    (attachments : List Attachment)
    (vkCreateFramebuffer : Nat → List Nat → Nat × Nat × Nat → Except OomError Nat)
    (hcheck : render_pass.desc.check_attachments_list attachments = Except.ok ()) :
    Framebuffer.new render_pass (0, 0, 0) attachments vkCreateFramebuffer =
      match vkCreateFramebuffer render_pass.inner_handle
          (intoAttachmentsList attachments).raw_image_view_handles (0, 0, 0) with
      | Except.error err => Except.error (FramebufferCreationError.OomError err)
      | Except.ok handle =>
        Except.ok
          { device := render_pass.device
            render_pass := render_pass
            framebuffer := handle
            dimensions := (0, 0, 0)
            resources := intoAttachmentsList attachments } := by
  simp only [Framebuffer.new, hcheck]
  rw [if_neg (by simp)]

/-- C9 witness: a `(0, 0, 0)` request with a succeeding native call
constructs a framebuffer instead of failing the dimension check. -/
theorem framebuffer_new_no_lower_bound_witness :
    Framebuffer.new renderPassEx (0, 0, 0) [attachmentEx] vkCreateEx =
      Except.ok
        { device := deviceEx
          render_pass := renderPassEx
          framebuffer := 99
          dimensions := (0, 0, 0)
          resources := intoAttachmentsList [attachmentEx] } :=
  (framebuffer_new_no_lower_bound renderPassEx [attachmentEx] vkCreateEx rfl).trans rfl
